import Mathlib

/-!
Shallow embedding of the host-probing and submission logic of
`CIME/XML/machines.py` and `CIME/case/case_submit.py`, together with
theorems checking the natural-language specification against it.

External collaborators (the `re` module, `get_resolved_value`, the batch
adapter, the filesystem checks, `get_time_in_seconds`, ...) are modelled as
explicit oracle parameters; Python exceptions raised through `expect` are
modelled with `Except String`.
-/

/-- `startsWithC s pre` is true when the character list `pre` is an initial
segment of `s`; executable core of Python `str.startswith`. -/
def startsWithC : List Char → List Char → Bool
  | _, [] => true
  | [], _ :: _ => false
  | c :: s, d :: pre => c = d && startsWithC s pre

/-- Python `s.startswith(pre)` over the characters of the strings (defined
by structural recursion so that concrete instances evaluate in the kernel). -/
def pyStartsWith (s pre : String) : Bool := startsWithC s.data pre.data

/-- Split a character list at every occurrence of `sep`; executable core of
Python `str.split` with a one-character separator. -/
def splitOnCharC (sep : Char) : List Char → List (List Char)
  | [] => [[]]
  | c :: rest =>
    match splitOnCharC sep rest with
    | h :: t => if c = sep then [] :: h :: t else (c :: h) :: t
    | [] => [[c]]

/-- Python `s.split(":")`. -/
def pySplitColon (s : String) : List String := (splitOnCharC ':' s.data).map String.mk

namespace Machines

/-- One `<machine>` node of `config_machines.xml` as consumed by
`_probe_machine_name_one_guess_v2`: the `MACH` attribute and the optional
`NODENAME_REGEX` child.  `Option.none` means the child element is absent;
`some Option.none` means the element is present but its text is `None`. -/
structure MachineProfile where
  mach : String
  nodename_regex : Option (Option String)
deriving DecidableEq, Repr

/-- `regex_str = machtocheck if regex_str_node is None else self.text(regex_str_node)`
(machines.py lines 250-253). -/
def machineRegexStr (p : MachineProfile) : Option String :=
  match p.nodename_regex with
  | Option.none => some p.mach
  | some t => t

/-- The message of the `expect(False, ...)` raised for a malformed
environment-match rule (machines.py lines 266-271). -/
def badFormationMsg (regex_str : String) : String :=
  "Bad formation of NODENAME_REGEX.  Expected envvar:value, found " ++ regex_str

/-- Body of one iteration of the profile loop of
`_probe_machine_name_one_guess_v2` (machines.py lines 247-284): decides
whether the profile matches `nametomatch`, or raises the malformed-rule
error.  `rmatch pat s` models `re.compile(pat).match(s) is not None`;
`resolve` models `self.get_resolved_value(-, allow_unresolved_envvars=True)`. -/
def machine_rule_match_v2 (rmatch : String → String → Bool) (resolve : String → String)
    (p : MachineProfile) (nametomatch : String) : Except String Bool :=
  match machineRegexStr p with
  | Option.none => Except.ok false
  | some regex_str =>
    if pyStartsWith regex_str "$ENV" then
      let machine_value := resolve regex_str
      if pyStartsWith machine_value "$ENV" then
        Except.ok false
      else
        match pySplitColon machine_value with
        | [v1, v2] => Except.ok (v1 == v2)
        | _ => Except.error (badFormationMsg regex_str)
    else
      Except.ok (rmatch regex_str nametomatch)

/-- The profile loop of `_probe_machine_name_one_guess_v2` (machines.py
lines 243-286): first matching profile wins, `Option.none` when none match. -/
def _probe_machine_name_one_guess_v2 (rmatch : String → String → Bool)
    (resolve : String → String) (nodes : List MachineProfile) (nametomatch : String) :
    Except String (Option String) :=
  match nodes with
  | [] => Except.ok Option.none
  | p :: rest =>
    match machine_rule_match_v2 rmatch resolve p nametomatch with
    | Except.error e => Except.error e
    | Except.ok true => Except.ok (some p.mach)
    | Except.ok false => _probe_machine_name_one_guess_v2 rmatch resolve rest nametomatch

/-- `probe_machine_name` (machines.py lines 201-231): try the fully
qualified domain name first, fall back to the short hostname only when the
first guess found nothing. -/
def probe_machine_name (rmatch : String → String → Bool) (resolve : String → String)
    (nodes : List MachineProfile) (fqdn hostname : String) :
    Except String (Option String) :=
  match _probe_machine_name_one_guess_v2 rmatch resolve nodes fqdn with
  | Except.error e => Except.error e
  | Except.ok (some machine) => Except.ok (some machine)
  | Except.ok Option.none => _probe_machine_name_one_guess_v2 rmatch resolve nodes hostname

/-- Specification-side predicate: the profile matches the candidate (the
error branch counts as a non-match; it is ruled out by `envRuleOkB`). -/
def matchesB (rmatch : String → String → Bool) (resolve : String → String)
    (p : MachineProfile) (nametomatch : String) : Bool :=
  match machine_rule_match_v2 rmatch resolve p nametomatch with
  | Except.ok b => b
  | Except.error _ => false

/-- The profile's rule is well formed with respect to `resolve`: an
environment-match rule either stays unresolved or splits into exactly two
colon-separated parts. -/
def envRuleOkB (resolve : String → String) (p : MachineProfile) : Bool :=
  match machineRegexStr p with
  | Option.none => true
  | some regex_str =>
    !(pyStartsWith regex_str "$ENV")
      || pyStartsWith (resolve regex_str) "$ENV"
      || (pySplitColon (resolve regex_str)).length == 2

/-- Models Python `re.match(pat, s)` for a metacharacter-free pattern:
the match is anchored at the start of `s`, so it succeeds exactly when
`pat` is a prefix of `s`. -/
def literal_re_match (pat s : String) : Bool := pyStartsWith s pat

theorem machine_rule_match_ok (rmatch : String → String → Bool)
    (resolve : String → String) (p : MachineProfile) (c : String)
    (h : envRuleOkB resolve p = true) :
    machine_rule_match_v2 rmatch resolve p c = Except.ok (matchesB rmatch resolve p c) := by
  suffices hne : ∃ b, machine_rule_match_v2 rmatch resolve p c = Except.ok b by
    obtain ⟨b, hb⟩ := hne
    simp [matchesB, hb]
  unfold envRuleOkB at h
  unfold machine_rule_match_v2
  cases hr : machineRegexStr p with
  | none => exact ⟨false, rfl⟩
  | some regex_str =>
    rw [hr] at h
    by_cases henv : pyStartsWith regex_str "$ENV"
    · simp only [henv, if_true]
      by_cases hres : pyStartsWith (resolve regex_str) "$ENV"
      · exact ⟨false, by simp [hres]⟩
      · simp only [henv, hres, Bool.not_true, Bool.false_or] at h
        simp only [hres, Bool.false_eq_true, if_false]
        cases hs : pySplitColon (resolve regex_str) with
        | nil => rw [hs] at h; simp at h
        | cons a tl =>
          cases tl with
          | nil => rw [hs] at h; simp at h
          | cons b tl2 =>
            cases tl2 with
            | nil => exact ⟨a == b, rfl⟩
            | cons c2 tl3 => rw [hs] at h; simp at h
    · exact ⟨rmatch regex_str c, by simp [henv]⟩

theorem probe_one_guess_find (rmatch : String → String → Bool)
    (resolve : String → String) (nodes : List MachineProfile) (c : String)
    (h : ∀ p ∈ nodes, envRuleOkB resolve p = true) :
    _probe_machine_name_one_guess_v2 rmatch resolve nodes c =
      Except.ok (Option.map MachineProfile.mach
        (nodes.find? (fun p => matchesB rmatch resolve p c))) := by
  induction nodes with
  | nil => simp [_probe_machine_name_one_guess_v2]
  | cons p rest ih =>
    have hp : envRuleOkB resolve p = true := h p (List.mem_cons_self p rest)
    have hrest : ∀ q ∈ rest, envRuleOkB resolve q = true := by
      intro q hq; exact h q (List.mem_cons_of_mem p hq)
    unfold _probe_machine_name_one_guess_v2
    rw [machine_rule_match_ok rmatch resolve p c hp]
    cases hm : matchesB rmatch resolve p c with
    | true => simp [List.find?, hm]
    | false => simp [List.find?, hm, ih hrest]

/-- Claim C2: machine probing tries the fully qualified domain name against
every profile first and falls back to the short hostname only when no
profile matched the first candidate; it returns the first profile in
declaration order that matches the first candidate with any match, and
`Option.none` when no candidate matches any profile. -/
theorem probe_first_match_wins (rmatch : String → String → Bool)
    (resolve : String → String) (nodes : List MachineProfile) (fqdn hostname : String)
    (h : ∀ p ∈ nodes, envRuleOkB resolve p = true) :
    probe_machine_name rmatch resolve nodes fqdn hostname =
      Except.ok
        (match nodes.find? (fun p => matchesB rmatch resolve p fqdn) with
         | some p => some p.mach
         | Option.none =>
             Option.map MachineProfile.mach
               (nodes.find? (fun p => matchesB rmatch resolve p hostname))) := by
  unfold probe_machine_name
  rw [probe_one_guess_find rmatch resolve nodes fqdn h,
    probe_one_guess_find rmatch resolve nodes hostname h]
  cases nodes.find? (fun p => matchesB rmatch resolve p fqdn) with
  | none => simp
  | some p => simp

/-- Concrete instantiation of `probe_first_match_wins`: the second profile
matches the fqdn, so it wins even though the first profile matches the
short hostname. -/
theorem probe_first_match_wins_witness :
    probe_machine_name literal_re_match (fun s => s)
      [⟨"host", some (some "hostname.example")⟩, ⟨"m2", some (some "m2.domain")⟩]
      "m2.domain.example" "hostname" = Except.ok (some "m2") := by
  rw [probe_first_match_wins literal_re_match (fun s => s)
    [⟨"host", some (some "hostname.example")⟩, ⟨"m2", some (some "m2.domain")⟩]
    "m2.domain.example" "hostname" (by decide)]
  rfl

/-- Claim C3: for a profile whose rule begins with the `$ENV` marker, the
rule is resolved tolerating unresolved references; if the resolved string
no longer carries the marker and splits as `v1:v2` the profile matches iff
`v1 == v2`, and if the marker is still present the profile does not match,
no error is raised, and probing continues with the remaining profiles. -/
theorem env_rule_match_semantics (rmatch : String → String → Bool)
    (resolve : String → String) (p : MachineProfile) (rest : List MachineProfile)
    (c : String) (r : String)
    (hr : p.nodename_regex = some (some r)) (henv : pyStartsWith r "$ENV" = true) :
    (∀ v1 v2, pyStartsWith (resolve r) "$ENV" = false → pySplitColon (resolve r) = [v1, v2] →
       machine_rule_match_v2 rmatch resolve p c = Except.ok (v1 == v2))
    ∧ (pyStartsWith (resolve r) "$ENV" = true →
       machine_rule_match_v2 rmatch resolve p c = Except.ok false
       ∧ _probe_machine_name_one_guess_v2 rmatch resolve (p :: rest) c =
           _probe_machine_name_one_guess_v2 rmatch resolve rest c) := by
  have hstr : machineRegexStr p = some r := by unfold machineRegexStr; rw [hr]
  constructor
  · intro v1 v2 hres hsplit
    unfold machine_rule_match_v2
    rw [hstr]
    simp only [henv, if_true, hres, Bool.false_eq_true, if_false, hsplit]
  · intro hres
    have hm : machine_rule_match_v2 rmatch resolve p c = Except.ok false := by
      unfold machine_rule_match_v2
      rw [hstr]
      simp [henv, hres]
    refine ⟨hm, ?_⟩
    conv_lhs => unfold _probe_machine_name_one_guess_v2
    rw [hm]

/-- Concrete instantiation of `env_rule_match_semantics`: a resolver that
maps `$ENV{X}:val` to `val:val` makes the profile match, and a resolver
that leaves the marker in place makes the probe skip to the next profile. -/
theorem env_rule_match_semantics_witness :
    machine_rule_match_v2 literal_re_match (fun _ => "val:val")
      ⟨"m1", some (some "$ENVX:val")⟩ "anyhost" = Except.ok true
    ∧ _probe_machine_name_one_guess_v2 literal_re_match (fun s => s)
        [⟨"m1", some (some "$ENVX:val")⟩, ⟨"m2", some (some "anyhost")⟩] "anyhost" =
      _probe_machine_name_one_guess_v2 literal_re_match (fun s => s)
        [⟨"m2", some (some "anyhost")⟩] "anyhost" := by
  constructor
  · have h := (env_rule_match_semantics literal_re_match (fun _ => "val:val")
      ⟨"m1", some (some "$ENVX:val")⟩ [] "anyhost" "$ENVX:val" rfl (by decide)).1
      "val" "val" (by decide) (by decide)
    simpa using h
  · exact ((env_rule_match_semantics literal_re_match (fun s => s)
      ⟨"m1", some (some "$ENVX:val")⟩ [⟨"m2", some (some "anyhost")⟩] "anyhost"
      "$ENVX:val" rfl (by decide)).2 (by decide)).2

/-- Claim C4: an environment-match rule whose resolution has shed the
marker but does not split into exactly two colon-separated parts makes the
probe raise the fatal `Bad formation of NODENAME_REGEX` error naming the
rule; the error propagates out of the profile loop instead of being
treated as a non-match. -/
theorem env_rule_malformed_fatal (rmatch : String → String → Bool)
    (resolve : String → String) (p : MachineProfile) (rest : List MachineProfile)
    (c : String) (r : String) (parts : List String)
    (hr : machineRegexStr p = some r) (henv : pyStartsWith r "$ENV" = true)
    (hres : pyStartsWith (resolve r) "$ENV" = false)
    (hsplit : pySplitColon (resolve r) = parts) (hlen : parts.length ≠ 2) :
    machine_rule_match_v2 rmatch resolve p c = Except.error (badFormationMsg r)
    ∧ _probe_machine_name_one_guess_v2 rmatch resolve (p :: rest) c =
        Except.error (badFormationMsg r) := by
  have hm : machine_rule_match_v2 rmatch resolve p c = Except.error (badFormationMsg r) := by
    unfold machine_rule_match_v2
    rw [hr]
    simp only [henv, if_true, hres, Bool.false_eq_true, if_false, hsplit]
    cases parts with
    | nil => rfl
    | cons a tl =>
      cases tl with
      | nil => rfl
      | cons b tl2 =>
        cases tl2 with
        | nil => exact absurd rfl hlen
        | cons c2 tl3 => rfl
  refine ⟨hm, ?_⟩
  conv_lhs => unfold _probe_machine_name_one_guess_v2
  rw [hm]

/-- Concrete instantiation of `env_rule_malformed_fatal`: a rule resolving
to a single part with no colon aborts the probe with the fatal error. -/
theorem env_rule_malformed_fatal_witness :
    _probe_machine_name_one_guess_v2 literal_re_match (fun _ => "loneval")
      [⟨"m1", some (some "$ENVX:val")⟩, ⟨"m2", some (some "anyhost")⟩] "anyhost" =
      Except.error (badFormationMsg "$ENVX:val") :=
  (env_rule_malformed_fatal literal_re_match (fun _ => "loneval")
    ⟨"m1", some (some "$ENVX:val")⟩ [⟨"m2", some (some "anyhost")⟩] "anyhost"
    "$ENVX:val" ["loneval"] rfl (by decide) (by decide) (by decide) (by decide)).2

/-- Counterexample to claim C9: a profile with no `NODENAME_REGEX` rule
matches a candidate that is not equal to the profile name, because the name
is compiled as a start-anchored regular expression (here a literal prefix),
not used as a literal-equality pattern. -/
theorem absent_rule_not_equality_counterexample :
    machine_rule_match_v2 literal_re_match (fun s => s)
      ⟨"blues", Option.none⟩ "blues.lcrc.anl.gov" = Except.ok true
    ∧ "blues.lcrc.anl.gov" ≠ "blues" := by
  constructor
  · rfl
  · decide

/-- Claim C9 as amended: for a profile whose rule is absent, the profile's
own name is used as the pattern through the ordinary start-anchored
regular-expression path (provided the name does not begin with the `$ENV`
marker), so the profile matches exactly when the regex engine matches the
name against the candidate. -/
theorem absent_rule_uses_name_as_regex (rmatch : String → String → Bool)
    (resolve : String → String) (name c : String)
    (henv : pyStartsWith name "$ENV" = false) :
    machine_rule_match_v2 rmatch resolve ⟨name, Option.none⟩ c =
      Except.ok (rmatch name c) := by
  unfold machine_rule_match_v2 machineRegexStr
  simp [henv]

/-- Concrete instantiation of `absent_rule_uses_name_as_regex`. -/
theorem absent_rule_uses_name_as_regex_witness :
    machine_rule_match_v2 literal_re_match (fun s => s)
      ⟨"alpha", Option.none⟩ "alpha7.cluster" = Except.ok true := by
  rw [absent_rule_uses_name_as_regex literal_re_match (fun s => s) "alpha"
    "alpha7.cluster" (by decide)]
  rfl

end Machines

namespace CaseSubmit

/-- `_build_prereq_str` (case_submit.py lines 24-29): concatenate
`str(job_id) + delimiter` over the previously known job ids in insertion
order, then take `prereq_str[:-1]`, which drops the final character
(modelled as `List.dropLast` on the character list of the string). -/
def _build_prereq_str (delimiter : String) (prev_job_ids : List String) : String :=
  String.mk ((prev_job_ids.foldl (fun acc job_id => acc ++ job_id ++ delimiter) "").data.dropLast)

/-- Counterexample to claim C5: with the two-character delimiter `"::"`,
the code strips only the final character, not the whole trailing
delimiter, so the result keeps a dangling `":"`. -/
theorem build_prereq_str_counterexample :
    _build_prereq_str "::" ["17", "18"] = "17::18:"
    ∧ _build_prereq_str "::" ["17", "18"] ≠ "17::18" := by
  constructor
  · decide
  · decide

/-- Python `delimiter.join(ids)`: the ids joined with the delimiter placed
between consecutive ids.  This is also the claim's reading of the
prerequisite-string construction (concatenate `id + delimiter` and strip
the full trailing delimiter). -/
def pyJoin (delimiter : String) (ids : List String) : String :=
  match ids with
  | [] => ""
  | [x] => x
  | x :: rest => x ++ delimiter ++ pyJoin delimiter rest

theorem build_prereq_foldl_data (delimiter : String) (ids : List String) (acc : String) :
    (ids.foldl (fun a job_id => a ++ job_id ++ delimiter) acc).data
      = acc.data ++ (ids.map (fun j => j.data ++ delimiter.data)).flatten := by
  induction ids generalizing acc with
  | nil => simp
  | cons x rest ih =>
    simp only [List.foldl_cons, ih, List.map_cons, List.flatten, String.data_append]
    simp [List.append_assoc]

theorem pyJoin_data (d : Char) (x : String) (rest : List String) :
    ((x :: rest).map (fun j => j.data ++ [d])).flatten
      = (pyJoin (String.mk [d]) (x :: rest)).data ++ [d] := by
  induction rest generalizing x with
  | nil => simp [pyJoin]
  | cons y rest2 ih =>
    show x.data ++ [d] ++ ((y :: rest2).map (fun j => j.data ++ [d])).flatten = _
    rw [ih y]
    show _ = (x ++ String.mk [d] ++ pyJoin (String.mk [d]) (y :: rest2)).data ++ [d]
    simp [String.data_append, List.append_assoc]

/-- Claim C5 as amended: the construction drops the final character, which
is the trailing delimiter exactly when the machine delimiter is a single
character; in that case the result is the ids joined with the delimiter
between consecutive ids, and an empty id mapping yields the empty string. -/
theorem build_prereq_str_single_char (d : Char) (ids : List String) :
    _build_prereq_str (String.mk [d]) ids = pyJoin (String.mk [d]) ids := by
  cases ids with
  | nil => rfl
  | cons x rest =>
    unfold _build_prereq_str
    rw [build_prereq_foldl_data (String.mk [d]) (x :: rest) ""]
    show String.mk (((x :: rest).map (fun j => j.data ++ [d])).flatten.dropLast) = _
    rw [pyJoin_data d x rest]
    rw [List.dropLast_concat]

end CaseSubmit

/-- Exact value of an ideal Python float, kept as an unreduced fraction so
that concrete instances evaluate in the kernel.  Python float arithmetic is
idealised as exact rational arithmetic; every value built by the coupling
gate has a positive denominator, for which the comparison operations below
agree with the rational ones. -/
structure PyRat where
  num : ℤ
  den : ℤ
deriving DecidableEq, Repr

/-- Embed a Python int. -/
def PyRat.ofNat (n : ℕ) : PyRat := ⟨(n : ℤ), 1⟩

/-- Embed a Python int. -/
def PyRat.ofInt (n : ℤ) : PyRat := ⟨n, 1⟩

/-- Python `a / b` (true division). -/
def PyRat.div (a b : PyRat) : PyRat := ⟨a.num * b.den, a.den * b.num⟩

/-- Python `a * b`. -/
def PyRat.mul (a b : PyRat) : PyRat := ⟨a.num * b.num, a.den * b.den⟩

/-- Python `a - b`. -/
def PyRat.sub (a b : PyRat) : PyRat := ⟨a.num * b.den - b.num * a.den, a.den * b.den⟩

/-- `math.floor(a)` for a positive denominator: `Int.fdiv` rounds toward
negative infinity. -/
def PyRat.floorv (a : PyRat) : ℤ := Int.fdiv a.num a.den

/-- Python `a <= b` for positive denominators. -/
def PyRat.le (a b : PyRat) : Bool := decide (a.num * b.den ≤ b.num * a.den)

/-- Python `a % b`, which for floats is `a - b * math.floor(a / b)`. -/
def PyRat.pymod (a b : PyRat) : PyRat :=
  PyRat.sub a (PyRat.mul b (PyRat.ofInt (PyRat.floorv (PyRat.div a b))))

/-- Python `a == 0` for a nonzero denominator. -/
def PyRat.isZero (a : PyRat) : Bool := a.num == 0

namespace CaseSubmit

/-- Python `s.lower()` for ASCII strings. -/
def pyLower (s : String) : String := String.mk (s.data.map Char.toLower)

/-- One entry of `COMP_CLASSES` with the values `check_case` reads for it:
`compname` is `COMP_<comp>` and `ncpl` is `<comp>_NCPL` (`Option.none` when
the setting is absent). -/
structure CompClass where
  comp : String
  compname : String
  ncpl : Option ℕ
deriving DecidableEq, Repr

/-- `"s{}".format(comp.lower())`, the stub component name (case_submit.py
line 334). -/
def stub_name (comp : String) : String := "s" ++ pyLower comp

/-- The loop state of the NCPL scan of `check_case` (case_submit.py lines
325-343): despite its name, `maxncpl` ends up holding the smallest truthy
NCPL value (it is only ever lowered), and `minncpl` the largest. -/
structure NcplScan where
  maxncpl : ℕ
  minncpl : ℕ
  maxcomp : Option String
deriving DecidableEq, Repr

/-- `if ncpl and maxncpl > ncpl: maxncpl = ncpl; maxcomp = comp`
(case_submit.py lines 339-341). -/
def ncplUpdateMax (st : NcplScan) (ncpl : Option ℕ) (comp : String) : NcplScan :=
  match ncpl with
  | some n =>
    if n ≠ 0 ∧ st.maxncpl > n then { st with maxncpl := n, maxcomp := some comp } else st
  | Option.none => st

/-- `if ncpl and minncpl < ncpl: minncpl = ncpl` (case_submit.py lines
342-343). -/
def ncplUpdateMin (st : NcplScan) (ncpl : Option ℕ) : NcplScan :=
  match ncpl with
  | some n => if n ≠ 0 ∧ st.minncpl < n then { st with minncpl := n } else st
  | Option.none => st

/-- One iteration of the NCPL scan loop (case_submit.py lines 328-343). -/
def ncplStep (st : NcplScan) (c : CompClass) : NcplScan :=
  if c.comp = "CPL" then st
  else
    let ncpl : Option ℕ := if c.compname = stub_name c.comp then Option.none else c.ncpl
    ncplUpdateMin (ncplUpdateMax st ncpl c.comp) ncpl

/-- The NCPL scan of `check_case`, started from `maxncpl = 10000`,
`minncpl = 0` (case_submit.py lines 325-343). -/
def ncplScan (comps : List CompClass) : NcplScan :=
  comps.foldl ncplStep ⟨10000, 0, Option.none⟩

/-- The base-period table of `check_case` (case_submit.py lines 345-357);
`Option.none` for an unknown base period, where the Python code would hit
an unbound local. -/
def periodSeconds : String → Option ℕ
  | "hour" => some 3600
  | "day" => some 86400
  | "year" => some 31536000
  | "decade" => some 315360000
  | _ => Option.none

/-- The coupling-interval gate of `check_case` for the nuopc interface
(case_submit.py lines 317-370).  `get_time_in_seconds` is the external
converter from `CIME.utils`.  Python computes
`timestep = <period> / minncpl` unconditionally inside every base-period
branch, so when the scan leaves `minncpl = 0` (no active non-stub
component has a truthy NCPL) the call raises `ZeroDivisionError` there;
an unknown base period leaves `coupling_secs`/`timestep` unbound and the
first later use raises `NameError`.  Otherwise the result is whether the
`expect` on line 365 passes
(`runtime >= coupling_secs and runtime % coupling_secs == 0`). -/
def check_case_coupling (comps : List CompClass) (ncpl_base_period : String)
    (stop_option : String) (stop_n : PyRat)
    (get_time_in_seconds : PyRat → String → PyRat) : Except String Bool :=
  match periodSeconds ncpl_base_period with
  | Option.none => Except.error "NameError"
  | some p =>
    let scan := ncplScan comps
    let coupling_secs := PyRat.div (PyRat.ofNat p) (PyRat.ofNat scan.maxncpl)
    if scan.minncpl = 0 then Except.error "ZeroDivisionError"
    else
      let timestep := PyRat.div (PyRat.ofNat p) (PyRat.ofNat scan.minncpl)
      let so_sn :=
        if stop_option = "nsteps" then ("seconds", PyRat.mul stop_n timestep)
        else (stop_option, stop_n)
      let runtime := get_time_in_seconds so_sn.2 so_sn.1
      Except.ok (PyRat.le coupling_secs runtime && PyRat.isZero (PyRat.pymod runtime coupling_secs))

/-- The NCPL values of active non-coupler, non-stub components, as the
claim describes the population over which the coupling count ranges. -/
def activeNcpls (comps : List CompClass) : List ℕ :=
  comps.filterMap (fun c =>
    if c.comp = "CPL" then Option.none
    else if c.compname = stub_name c.comp then Option.none
    else c.ncpl)

/-- The NCPL values the scan actually folds over: active non-coupler,
non-stub components whose NCPL value is truthy (present and nonzero). -/
def truthyNcpls (comps : List CompClass) : List ℕ :=
  comps.filterMap (fun c =>
    if c.comp = "CPL" then Option.none
    else if c.compname = stub_name c.comp then Option.none
    else
      match c.ncpl with
      | some n => if n = 0 then Option.none else some n
      | Option.none => Option.none)

theorem ncplUpdateMin_maxncpl (st : NcplScan) (o : Option ℕ) :
    (ncplUpdateMin st o).maxncpl = st.maxncpl := by
  cases o with
  | none => rfl
  | some n =>
    show (if n ≠ 0 ∧ st.minncpl < n then { st with minncpl := n } else st).maxncpl = st.maxncpl
    split <;> rfl

theorem ncplUpdateMax_maxncpl_none (st : NcplScan) (comp : String) :
    (ncplUpdateMax st Option.none comp).maxncpl = st.maxncpl := rfl

theorem ncplUpdateMax_maxncpl_zero (st : NcplScan) (comp : String) :
    (ncplUpdateMax st (some 0) comp).maxncpl = st.maxncpl := by
  show (if (0 ≠ 0 ∧ st.maxncpl > 0) then
    { st with maxncpl := 0, maxcomp := some comp } else st).maxncpl = st.maxncpl
  rw [if_neg (by simp)]

theorem ncplUpdateMax_maxncpl (st : NcplScan) (n : ℕ) (comp : String) (h0 : n ≠ 0) :
    (ncplUpdateMax st (some n) comp).maxncpl = min st.maxncpl n := by
  show (if (n ≠ 0 ∧ st.maxncpl > n) then
    { st with maxncpl := n, maxcomp := some comp } else st).maxncpl = min st.maxncpl n
  by_cases hlt : st.maxncpl > n
  · rw [if_pos ⟨h0, hlt⟩]
    show n = min st.maxncpl n
    omega
  · rw [if_neg (fun hc => hlt hc.2)]
    show st.maxncpl = min st.maxncpl n
    omega

theorem ncplStep_maxncpl (st : NcplScan) (c : CompClass) :
    (ncplStep st c).maxncpl =
      (truthyNcpls [c]).foldl min st.maxncpl := by
  unfold ncplStep truthyNcpls
  by_cases hcpl : c.comp = "CPL"
  · simp [hcpl]
  · simp only [hcpl, if_false, List.filterMap]
    by_cases hstub : c.compname = stub_name c.comp
    · simp [hstub, ncplUpdateMin_maxncpl, ncplUpdateMax_maxncpl_none]
    · simp only [hstub, if_false]
      cases hn : c.ncpl with
      | none => simp [ncplUpdateMin_maxncpl, ncplUpdateMax_maxncpl_none]
      | some n =>
        by_cases h0 : n = 0
        · simp [h0, ncplUpdateMin_maxncpl, ncplUpdateMax_maxncpl_zero]
        · simp [h0, ncplUpdateMin_maxncpl, ncplUpdateMax_maxncpl st n c.comp h0]

theorem ncplScan_foldl_maxncpl (comps : List CompClass) (st : NcplScan) :
    (comps.foldl ncplStep st).maxncpl = (truthyNcpls comps).foldl min st.maxncpl := by
  induction comps generalizing st with
  | nil => simp [truthyNcpls]
  | cons c rest ih =>
    rw [List.foldl_cons, ih (ncplStep st c), ncplStep_maxncpl st c]
    show _ = (truthyNcpls (c :: rest)).foldl min st.maxncpl
    unfold truthyNcpls
    simp only [List.filterMap_cons]
    cases hc : (fun c : CompClass =>
        if c.comp = "CPL" then Option.none
        else if c.compname = stub_name c.comp then Option.none
        else
          match c.ncpl with
          | some n => if n = 0 then Option.none else some n
          | Option.none => Option.none) c with
    | none => simp [truthyNcpls, List.filterMap, hc]
    | some n => simp [truthyNcpls, List.filterMap, hc]

theorem ncplScan_maxncpl (comps : List CompClass) :
    (ncplScan comps).maxncpl = (truthyNcpls comps).foldl min 10000 :=
  ncplScan_foldl_maxncpl comps ⟨10000, 0, Option.none⟩

theorem ncplUpdateMax_minncpl (st : NcplScan) (o : Option ℕ) (comp : String) :
    (ncplUpdateMax st o comp).minncpl = st.minncpl := by
  cases o with
  | none => rfl
  | some n =>
    show (if n ≠ 0 ∧ st.maxncpl > n then
      { st with maxncpl := n, maxcomp := some comp } else st).minncpl = st.minncpl
    split <;> rfl

theorem ncplUpdateMin_minncpl_none (st : NcplScan) :
    (ncplUpdateMin st Option.none).minncpl = st.minncpl := rfl

theorem ncplUpdateMin_minncpl_zero (st : NcplScan) :
    (ncplUpdateMin st (some 0)).minncpl = st.minncpl := by
  show (if (0 ≠ 0 ∧ st.minncpl < 0) then { st with minncpl := 0 } else st).minncpl = st.minncpl
  rw [if_neg (by simp)]

theorem ncplUpdateMin_minncpl (st : NcplScan) (n : ℕ) (h0 : n ≠ 0) :
    (ncplUpdateMin st (some n)).minncpl = max st.minncpl n := by
  show (if (n ≠ 0 ∧ st.minncpl < n) then { st with minncpl := n } else st).minncpl
    = max st.minncpl n
  by_cases hlt : st.minncpl < n
  · rw [if_pos ⟨h0, hlt⟩]
    show n = max st.minncpl n
    omega
  · rw [if_neg (fun hc => hlt hc.2)]
    show st.minncpl = max st.minncpl n
    omega

theorem ncplStep_minncpl (st : NcplScan) (c : CompClass) :
    (ncplStep st c).minncpl =
      (truthyNcpls [c]).foldl max st.minncpl := by
  unfold ncplStep truthyNcpls
  by_cases hcpl : c.comp = "CPL"
  · simp [hcpl]
  · simp only [hcpl, if_false, List.filterMap]
    by_cases hstub : c.compname = stub_name c.comp
    · simp [hstub, ncplUpdateMin_minncpl_none, ncplUpdateMax_minncpl]
    · simp only [hstub, if_false]
      cases hn : c.ncpl with
      | none => simp [ncplUpdateMin_minncpl_none, ncplUpdateMax_minncpl]
      | some n =>
        by_cases h0 : n = 0
        · simp [h0, ncplUpdateMin_minncpl_zero, ncplUpdateMax_minncpl]
        · simp [h0, ncplUpdateMin_minncpl _ n h0, ncplUpdateMax_minncpl]

theorem ncplScan_foldl_minncpl (comps : List CompClass) (st : NcplScan) :
    (comps.foldl ncplStep st).minncpl = (truthyNcpls comps).foldl max st.minncpl := by
  induction comps generalizing st with
  | nil => simp [truthyNcpls]
  | cons c rest ih =>
    rw [List.foldl_cons, ih (ncplStep st c), ncplStep_minncpl st c]
    show _ = (truthyNcpls (c :: rest)).foldl max st.minncpl
    unfold truthyNcpls
    simp only [List.filterMap_cons]
    cases hc : (fun c : CompClass =>
        if c.comp = "CPL" then Option.none
        else if c.compname = stub_name c.comp then Option.none
        else
          match c.ncpl with
          | some n => if n = 0 then Option.none else some n
          | Option.none => Option.none) c with
    | none => simp [truthyNcpls, List.filterMap, hc]
    | some n => simp [truthyNcpls, List.filterMap, hc]

theorem ncplScan_minncpl (comps : List CompClass) :
    (ncplScan comps).minncpl = (truthyNcpls comps).foldl max 0 :=
  ncplScan_foldl_minncpl comps ⟨10000, 0, Option.none⟩

theorem le_foldl_max (l : List ℕ) (a : ℕ) : a ≤ l.foldl max a := by
  induction l generalizing a with
  | nil => exact le_refl a
  | cons x xs ih => exact le_trans (le_max_left a x) (ih (max a x))

theorem truthyNcpls_pos (comps : List CompClass) : ∀ n ∈ truthyNcpls comps, n ≠ 0 := by
  intro n hn
  unfold truthyNcpls at hn
  rw [List.mem_filterMap] at hn
  obtain ⟨c, _, hc⟩ := hn
  by_cases hcpl : c.comp = "CPL"
  · rw [if_pos hcpl] at hc
    exact absurd hc (by simp)
  · rw [if_neg hcpl] at hc
    by_cases hstub : c.compname = stub_name c.comp
    · rw [if_pos hstub] at hc
      exact absurd hc (by simp)
    · rw [if_neg hstub] at hc
      cases hcn : c.ncpl with
      | none =>
        rw [hcn] at hc
        exact absurd hc (by simp)
      | some m =>
        rw [hcn] at hc
        by_cases h0 : m = 0
        · simp only [h0, if_pos rfl] at hc
          exact absurd hc (by simp)
        · simp only [h0, if_neg] at hc
          injection hc with hcm
          rw [hcm] at h0
          exact h0

theorem foldl_max_pos_of_ne_nil (l : List ℕ) (hne : l ≠ [])
    (hpos : ∀ n ∈ l, n ≠ 0) : l.foldl max 0 ≠ 0 := by
  obtain ⟨x, xs, rfl⟩ : ∃ x xs, l = x :: xs := by
    cases l with
    | nil => exact absurd rfl hne
    | cons x xs => exact ⟨x, xs, rfl⟩
  have hx : x ≠ 0 := hpos x (List.mem_cons_self x xs)
  have hle : x ≤ (x :: xs).foldl max 0 := by
    show x ≤ xs.foldl max (max 0 x)
    exact le_trans (le_max_right 0 x) (le_foldl_max xs (max 0 x))
  omega

/-- Counterexample to claim C1: with active NCPL values 48 and 24 and base
period `day`, the claim's formula `period / max(NCPL) = 86400 / 48 = 1800`
accepts a 1800-second run (1800 % 1800 == 0 and 1800 >= 1800), but the
code's gate rejects it, because the code divides by the smallest NCPL
(86400 / 24 = 3600 seconds). -/
theorem coupling_gate_counterexample :
    check_case_coupling [⟨"ATM", "datm", some 48⟩, ⟨"OCN", "docn", some 24⟩]
        "day" "seconds" (PyRat.ofNat 1800) (fun n _ => n) = Except.ok false
    ∧ (activeNcpls [⟨"ATM", "datm", some 48⟩, ⟨"OCN", "docn", some 24⟩]).foldl max 0 = 48
    ∧ PyRat.le (PyRat.div (PyRat.ofNat 86400) (PyRat.ofNat 48)) (PyRat.ofNat 1800) = true
    ∧ PyRat.isZero (PyRat.pymod (PyRat.ofNat 1800)
        (PyRat.div (PyRat.ofNat 86400) (PyRat.ofNat 48))) = true := by
  refine ⟨?_, ?_, ?_, ?_⟩
  · rfl
  · decide
  · decide
  · decide

/-- Claim C1 as amended: when no active non-coupler, non-stub component
has a truthy NCPL value, `check_case` always fails, with the
`ZeroDivisionError` raised by the unconditional `timestep = period / minncpl`;
otherwise the required coupling interval is
`coupling_seconds = period_length_in_seconds / m` where `m` is the
MINIMUM over those NCPL values (capped above by the scan's initial value
10000, which the loop never raises), and the gate passes iff
`runtime >= coupling_seconds` and `runtime % coupling_seconds == 0`, where
runtime is the requested run length converted to seconds (an `nsteps` run
length is first converted using `timestep = period / max(NCPL)`). -/
theorem coupling_gate_uses_min_ncpl (comps : List CompClass)
    (ncpl_base_period stop_option : String) (stop_n : PyRat)
    (get_time_in_seconds : PyRat → String → PyRat) (p : ℕ)
    (hp : periodSeconds ncpl_base_period = some p) :
    (truthyNcpls comps = [] →
      check_case_coupling comps ncpl_base_period stop_option stop_n get_time_in_seconds =
        Except.error "ZeroDivisionError")
    ∧ (truthyNcpls comps ≠ [] →
      check_case_coupling comps ncpl_base_period stop_option stop_n get_time_in_seconds =
        Except.ok
          (let coupling_secs :=
            PyRat.div (PyRat.ofNat p) (PyRat.ofNat ((truthyNcpls comps).foldl min 10000));
          let timestep :=
            PyRat.div (PyRat.ofNat p) (PyRat.ofNat ((truthyNcpls comps).foldl max 0));
          let runtime :=
            if stop_option = "nsteps" then get_time_in_seconds (PyRat.mul stop_n timestep) "seconds"
            else get_time_in_seconds stop_n stop_option;
          PyRat.le coupling_secs runtime && PyRat.isZero (PyRat.pymod runtime coupling_secs))) := by
  constructor
  · intro hempty
    have hmin : (ncplScan comps).minncpl = 0 := by
      rw [ncplScan_minncpl, hempty]
      rfl
    simp [check_case_coupling, hp, hmin]
  · intro hne
    have hminf : (truthyNcpls comps).foldl max 0 ≠ 0 :=
      foldl_max_pos_of_ne_nil (truthyNcpls comps) hne (truthyNcpls_pos comps)
    by_cases hso : stop_option = "nsteps" <;>
      simp [check_case_coupling, hp, hso, ncplScan_maxncpl, ncplScan_minncpl, hminf]

/-- Concrete instantiation of `coupling_gate_uses_min_ncpl`: one component
coupled 60 times per hour gives a 60-second interval; a 120-second run is
accepted and a 100-second run is rejected; with only a stub component the
call fails with the division error. -/
theorem coupling_gate_uses_min_ncpl_witness :
    check_case_coupling [⟨"ATM", "datm", some 60⟩] "hour" "seconds"
        (PyRat.ofNat 120) (fun n _ => n) = Except.ok true
    ∧ check_case_coupling [⟨"ATM", "datm", some 60⟩] "hour" "seconds"
        (PyRat.ofNat 100) (fun n _ => n) = Except.ok false
    ∧ check_case_coupling [⟨"ATM", "satm", Option.none⟩] "day" "seconds"
        (PyRat.ofNat 86400) (fun n _ => n) = Except.error "ZeroDivisionError" := by
  refine ⟨?_, ?_, ?_⟩
  · rw [(coupling_gate_uses_min_ncpl [⟨"ATM", "datm", some 60⟩] "hour" "seconds"
      (PyRat.ofNat 120) (fun n _ => n) 3600 rfl).2 (by decide)]
    rfl
  · rw [(coupling_gate_uses_min_ncpl [⟨"ATM", "datm", some 60⟩] "hour" "seconds"
      (PyRat.ofNat 100) (fun n _ => n) 3600 rfl).2 (by decide)]
    rfl
  · exact (coupling_gate_uses_min_ncpl [⟨"ATM", "satm", Option.none⟩] "day" "seconds"
      (PyRat.ofNat 86400) (fun n _ => n) 86400 rfl).1 (by decide)

/-- The persisted case settings that `_submit` can write (case_submit.py
lines 32-212).  All other settings it touches are read-only there. -/
structure CaseState where
  RESUBMIT : ℤ
  CONTINUE_RUN : Bool
  IS_FIRST_RUN : Bool
  BATCH_SYSTEM : String
  JOB_IDS : String
deriving DecidableEq, Repr

/-- Read-only settings and external collaborators consulted by `_submit`:
`batch_system_type` is `env_batch.get_batch_system_type()`;
`continue_run_check_ok` is whether the three `expect`s of the
`CONTINUE_RUN` block (lines 59-92, run directory, restart pointer and
restart file) pass; `check_case_ok` is whether `case.check_case` passes;
`submit_jobs_result` is the ordered name/id mapping returned by
`case.submit_jobs`.  The lock/unlock/flush/regenerate calls act on
artifacts outside this state and are omitted; `check_DA_settings` only
logs. -/
structure SubmitEnv where
  COMP_CLASSES : List String
  RESUBMIT_SETS_CONTINUE_RUN : Bool
  EXTERNAL_WORKFLOW : Bool
  batch_system_type : String
  continue_run_check_ok : Bool
  check_case_ok : Bool
  first_job : String
  submit_jobs_result : List (String × String)
deriving DecidableEq, Repr

/-- Python truthiness of `not prereq` for an optional string. -/
def pyFalsyStrOpt : Option String → Bool
  | Option.none => true
  | some s => s = ""

/-- The `CONTINUE_RUN` sanity block of `_submit` (case_submit.py lines
57-92) fails: the guard on line 59 holds and the filesystem checks
(modelled by `continue_run_check_ok`) do not pass. -/
def continueRunGateFails (env : SubmitEnv) (prereq : Option String) (case0 : CaseState) : Bool :=
  case0.CONTINUE_RUN && env.COMP_CLASSES.contains "CPL" && pyFalsyStrOpt prereq
    && !env.continue_run_check_ok

/-- Lines 96-99: `no_batch` is forced on when the batch system type is
`none`, or when resubmitting under an external workflow. -/
def effectiveNoBatch (env : SubmitEnv) (resubmit no_batch : Bool) : Bool :=
  if env.batch_system_type = "none" || (resubmit && env.EXTERNAL_WORKFLOW) then true
  else no_batch

/-- Lines 106-109: persist the effective batch system only when it differs
from the stored value. -/
def updateBatchSystem (batch_system : String) (c : CaseState) : CaseState :=
  if batch_system ≠ c.BATCH_SYSTEM then { c with BATCH_SYSTEM := batch_system } else c

/-- The resubmit branch (case_submit.py lines 132-141): reset the
first-run flag for a test job, decrement `RESUBMIT` by one with no
clamping, and set `CONTINUE_RUN` when `RESUBMIT_SETS_CONTINUE_RUN` is on. -/
def resubmitBranch (env : SubmitEnv) (job : String) (case1 : CaseState) : CaseState :=
  let case2 := if job = "case.test" then { case1 with IS_FIRST_RUN := false } else case1
  let case3 := { case2 with RESUBMIT := case2.RESUBMIT - 1 }
  if env.RESUBMIT_SETS_CONTINUE_RUN then { case3 with CONTINUE_RUN := true } else case3

/-- The state updates of the fresh-submit branch (case_submit.py lines
143-152): set the first-run flag for a test job and persist the effective
batch system unconditionally. -/
def freshBranchState (env : SubmitEnv) (job : String) (no_batch : Bool)
    (case1 : CaseState) : CaseState :=
  let case2 := if job = "case.test" then { case1 with IS_FIRST_RUN := true } else case1
  let batch_system := if no_batch then "none" else env.batch_system_type
  { case2 with BATCH_SYSTEM := batch_system }

/-- The tail of `_submit` after the branch on `resubmit` (case_submit.py
lines 184-212): call `submit_jobs`, build the `name:id` ledger (all pairs
in dry-run mode, only truthy ids otherwise), join it with comma-space, and
persist it into `JOB_IDS` only when non-empty and not a dry run. -/
def finishSubmit (env : SubmitEnv) (dryrun : Bool) (st : CaseState) :
    CaseState × Except String String :=
  let job_ids := env.submit_jobs_result
  let xml_jobids :=
    if dryrun then job_ids.map (fun j => j.1 ++ ":" ++ j.2)
    else job_ids.filterMap (fun j => if j.2 ≠ "" then some (j.1 ++ ":" ++ j.2) else Option.none)
  let xml_jobid_text := pyJoin ", " xml_jobids
  if xml_jobid_text ≠ "" ∧ dryrun = false then
    ({ st with JOB_IDS := xml_jobid_text }, Except.ok xml_jobid_text)
  else
    (st, Except.ok xml_jobid_text)

/-- `_submit` (case_submit.py lines 32-212) as a transformer of the
persisted case settings.  Arguments that are only forwarded to external
collaborators (`skip_pnl`, mail settings, `batch_args`, `workflow`,
`chksum`, `allow_fail`, `resubmit_immediate`) are omitted; an `expect`
failure is an `Except.error` carrying the settings as mutated so far. -/
def _submit (env : SubmitEnv) (job : Option String) (no_batch : Bool)
    (prereq : Option String) (resubmit : Bool) (dryrun : Bool)
    (case0 : CaseState) : CaseState × Except String String :=
  let job := job.getD env.first_job
  if continueRunGateFails env prereq case0 then
    (case0, Except.error "CONTINUE_RUN check failed")
  else
    let no_batch := effectiveNoBatch env resubmit no_batch
    let batch_system := if no_batch then "none" else env.batch_system_type
    let case1 := updateBatchSystem batch_system case0
    if resubmit then
      finishSubmit env dryrun (resubmitBranch env job case1)
    else
      let case3 := freshBranchState env job no_batch case1
      if !env.check_case_ok then
        (case3, Except.error "check_case failed")
      else
        finishSubmit env dryrun case3

/-- The `name:id` ledger reported by a dry run: all pairs returned by the
batch adapter, joined with comma-space. -/
def dryLedger (env : SubmitEnv) : String :=
  pyJoin ", " (env.submit_jobs_result.map (fun j => j.1 ++ ":" ++ j.2))

/-- The `name:id` ledger of a real run: only pairs with a truthy id,
joined with comma-space. -/
def notDryLedger (env : SubmitEnv) : String :=
  pyJoin ", " (env.submit_jobs_result.filterMap
    (fun j => if j.2 ≠ "" then some (j.1 ++ ":" ++ j.2) else Option.none))

theorem finishSubmit_dry (env : SubmitEnv) (st : CaseState) :
    finishSubmit env true st = (st, Except.ok (dryLedger env)) := by
  simp [finishSubmit, dryLedger]

theorem finishSubmit_notdry (env : SubmitEnv) (st : CaseState) :
    finishSubmit env false st =
      if notDryLedger env ≠ "" then
        ({ st with JOB_IDS := notDryLedger env }, Except.ok (notDryLedger env))
      else
        (st, Except.ok (notDryLedger env)) := by
  simp [finishSubmit, notDryLedger]

theorem finishSubmit_RESUBMIT (env : SubmitEnv) (dryrun : Bool) (st : CaseState) :
    (finishSubmit env dryrun st).1.RESUBMIT = st.RESUBMIT := by
  cases dryrun with
  | true => rw [finishSubmit_dry]
  | false =>
    rw [finishSubmit_notdry]
    split <;> rfl

theorem finishSubmit_CONTINUE_RUN (env : SubmitEnv) (dryrun : Bool) (st : CaseState) :
    (finishSubmit env dryrun st).1.CONTINUE_RUN = st.CONTINUE_RUN := by
  cases dryrun with
  | true => rw [finishSubmit_dry]
  | false =>
    rw [finishSubmit_notdry]
    split <;> rfl

theorem updateBatchSystem_RESUBMIT (b : String) (c : CaseState) :
    (updateBatchSystem b c).RESUBMIT = c.RESUBMIT := by
  unfold updateBatchSystem
  split <;> rfl

theorem updateBatchSystem_JOB_IDS (b : String) (c : CaseState) :
    (updateBatchSystem b c).JOB_IDS = c.JOB_IDS := by
  unfold updateBatchSystem
  split <;> rfl

theorem resubmitBranch_RESUBMIT (env : SubmitEnv) (job : String) (c : CaseState) :
    (resubmitBranch env job c).RESUBMIT = c.RESUBMIT - 1 := by
  unfold resubmitBranch
  split <;> split <;> rfl

theorem resubmitBranch_CONTINUE_RUN (env : SubmitEnv) (job : String) (c : CaseState)
    (h : env.RESUBMIT_SETS_CONTINUE_RUN = true) :
    (resubmitBranch env job c).CONTINUE_RUN = true := by
  unfold resubmitBranch
  simp only [h, if_true]

theorem resubmitBranch_JOB_IDS (env : SubmitEnv) (job : String) (c : CaseState) :
    (resubmitBranch env job c).JOB_IDS = c.JOB_IDS := by
  unfold resubmitBranch
  split <;> split <;> rfl

theorem freshBranchState_RESUBMIT (env : SubmitEnv) (job : String) (nb : Bool)
    (c : CaseState) : (freshBranchState env job nb c).RESUBMIT = c.RESUBMIT := by
  unfold freshBranchState
  split <;> rfl

theorem freshBranchState_JOB_IDS (env : SubmitEnv) (job : String) (nb : Bool)
    (c : CaseState) : (freshBranchState env job nb c).JOB_IDS = c.JOB_IDS := by
  unfold freshBranchState
  split <;> rfl

theorem _submit_gate_fail (env : SubmitEnv) (job : Option String) (no_batch : Bool)
    (prereq : Option String) (resubmit dryrun : Bool) (st : CaseState)
    (h : continueRunGateFails env prereq st = true) :
    _submit env job no_batch prereq resubmit dryrun st =
      (st, Except.error "CONTINUE_RUN check failed") := by
  simp only [_submit, h, if_true]

theorem _submit_resubmit_shape (env : SubmitEnv) (job : Option String) (no_batch : Bool)
    (prereq : Option String) (dryrun : Bool) (st : CaseState)
    (h : continueRunGateFails env prereq st = false) :
    _submit env job no_batch prereq true dryrun st =
      finishSubmit env dryrun (resubmitBranch env (job.getD env.first_job)
        (updateBatchSystem
          (if effectiveNoBatch env true no_batch then "none" else env.batch_system_type) st)) := by
  simp only [_submit, h, Bool.false_eq_true, if_false, if_true]

theorem _submit_fresh_shape (env : SubmitEnv) (job : Option String) (no_batch : Bool)
    (prereq : Option String) (dryrun : Bool) (st : CaseState)
    (h : continueRunGateFails env prereq st = false) :
    _submit env job no_batch prereq false dryrun st =
      (if !env.check_case_ok then
        (freshBranchState env (job.getD env.first_job) (effectiveNoBatch env false no_batch)
          (updateBatchSystem
            (if effectiveNoBatch env false no_batch then "none" else env.batch_system_type) st),
         Except.error "check_case failed")
      else
        finishSubmit env dryrun
          (freshBranchState env (job.getD env.first_job) (effectiveNoBatch env false no_batch)
            (updateBatchSystem
              (if effectiveNoBatch env false no_batch then "none" else env.batch_system_type) st))) := by
  simp only [_submit, h, Bool.false_eq_true, if_false]

/-- Claim C6: on the resubmit path, when the call succeeds, the persisted
`RESUBMIT` budget ends exactly one below its starting value (no clamping),
and `CONTINUE_RUN` is set when `RESUBMIT_SETS_CONTINUE_RUN` is on;
moreover no `_submit` call — resubmit or not, failing or not — ever leaves
`RESUBMIT` above its starting value. -/
theorem resubmit_decrements_budget (env : SubmitEnv) (job : Option String)
    (no_batch : Bool) (prereq : Option String) (dryrun : Bool) (st : CaseState) :
    (∀ s, (_submit env job no_batch prereq true dryrun st).2 = Except.ok s →
        (_submit env job no_batch prereq true dryrun st).1.RESUBMIT = st.RESUBMIT - 1
        ∧ (env.RESUBMIT_SETS_CONTINUE_RUN = true →
            (_submit env job no_batch prereq true dryrun st).1.CONTINUE_RUN = true))
    ∧ ∀ resubmit : Bool,
        (_submit env job no_batch prereq resubmit dryrun st).1.RESUBMIT ≤ st.RESUBMIT := by
  constructor
  · intro s hs
    by_cases hgate : continueRunGateFails env prereq st = true
    · rw [_submit_gate_fail env job no_batch prereq true dryrun st hgate] at hs
      exact absurd hs (by simp)
    · have hsh := _submit_resubmit_shape env job no_batch prereq dryrun st
        (by simpa using hgate)
      rw [hsh]
      constructor
      · simp only [finishSubmit_RESUBMIT, resubmitBranch_RESUBMIT, updateBatchSystem_RESUBMIT]
      · intro hcr
        simp only [finishSubmit_CONTINUE_RUN, resubmitBranch_CONTINUE_RUN _ _ _ hcr]
  · intro resubmit
    by_cases hgate : continueRunGateFails env prereq st = true
    · rw [_submit_gate_fail env job no_batch prereq resubmit dryrun st hgate]
    · cases resubmit with
      | true =>
        rw [_submit_resubmit_shape env job no_batch prereq dryrun st (by simpa using hgate)]
        simp only [finishSubmit_RESUBMIT, resubmitBranch_RESUBMIT, updateBatchSystem_RESUBMIT]
        omega
      | false =>
        rw [_submit_fresh_shape env job no_batch prereq dryrun st (by simpa using hgate)]
        split
        · exact le_of_eq ((freshBranchState_RESUBMIT _ _ _ _).trans
            (updateBatchSystem_RESUBMIT _ _))
        · exact le_of_eq ((finishSubmit_RESUBMIT _ _ _).trans
            ((freshBranchState_RESUBMIT _ _ _ _).trans (updateBatchSystem_RESUBMIT _ _)))

/-- Concrete instantiation of `resubmit_decrements_budget`: a successful
resubmit takes the budget from 3 to 2 and turns on `CONTINUE_RUN`. -/
theorem resubmit_decrements_budget_witness :
    (_submit ⟨["CPL", "ATM"], true, false, "slurm", true, true, "case.run", [("case.run", "42")]⟩
        (some "case.run") false Option.none true false
        ⟨3, false, false, "slurm", ""⟩).1.RESUBMIT = 2
    ∧ (_submit ⟨["CPL", "ATM"], true, false, "slurm", true, true, "case.run", [("case.run", "42")]⟩
        (some "case.run") false Option.none true false
        ⟨3, false, false, "slurm", ""⟩).1.CONTINUE_RUN = true := by
  have h := (resubmit_decrements_budget
    ⟨["CPL", "ATM"], true, false, "slurm", true, true, "case.run", [("case.run", "42")]⟩
    (some "case.run") false Option.none false
    ⟨3, false, false, "slurm", ""⟩).1 "case.run:42" (by rfl)
  exact ⟨h.1.trans (by decide), h.2 rfl⟩

/-- Claim C7: a dry-run `_submit` leaves the persisted `JOB_IDS` setting
unchanged while still returning the reported `name:id` ledger, and in
general `JOB_IDS` changes only when the call is not a dry run, succeeds,
and the joined ledger is non-empty (in which case the new value is the
returned ledger). -/
theorem dryrun_preserves_job_ids (env : SubmitEnv) (job : Option String)
    (no_batch : Bool) (prereq : Option String) (resubmit : Bool) (dryrun : Bool)
    (st : CaseState) :
    ((_submit env job no_batch prereq resubmit true st).1.JOB_IDS = st.JOB_IDS
      ∧ (∀ s, (_submit env job no_batch prereq resubmit true st).2 = Except.ok s →
          s = dryLedger env))
    ∧ ((_submit env job no_batch prereq resubmit dryrun st).1.JOB_IDS ≠ st.JOB_IDS →
        dryrun = false
        ∧ (_submit env job no_batch prereq resubmit dryrun st).2 =
            Except.ok ((_submit env job no_batch prereq resubmit dryrun st).1.JOB_IDS)
        ∧ (_submit env job no_batch prereq resubmit dryrun st).1.JOB_IDS ≠ "") := by
  constructor
  · by_cases hgate : continueRunGateFails env prereq st = true
    · rw [_submit_gate_fail env job no_batch prereq resubmit true st hgate]
      exact ⟨rfl, by simp⟩
    · cases resubmit with
      | true =>
        rw [_submit_resubmit_shape env job no_batch prereq true st (by simpa using hgate),
          finishSubmit_dry]
        refine ⟨(resubmitBranch_JOB_IDS _ _ _).trans (updateBatchSystem_JOB_IDS _ _), ?_⟩
        intro s hs
        injection hs with h2
        exact h2.symm
      | false =>
        rw [_submit_fresh_shape env job no_batch prereq true st (by simpa using hgate)]
        split
        · exact ⟨(freshBranchState_JOB_IDS _ _ _ _).trans (updateBatchSystem_JOB_IDS _ _),
            fun s hs => absurd hs (by simp)⟩
        · rw [finishSubmit_dry]
          refine ⟨(freshBranchState_JOB_IDS _ _ _ _).trans (updateBatchSystem_JOB_IDS _ _), ?_⟩
          intro s hs
          injection hs with h2
          exact h2.symm
  · have hfin : ∀ st1 : CaseState, st1.JOB_IDS = st.JOB_IDS →
        (finishSubmit env dryrun st1).1.JOB_IDS ≠ st.JOB_IDS →
        dryrun = false
        ∧ (finishSubmit env dryrun st1).2 =
            Except.ok ((finishSubmit env dryrun st1).1.JOB_IDS)
        ∧ (finishSubmit env dryrun st1).1.JOB_IDS ≠ "" := by
      intro st1 heq hne
      cases dryrun with
      | true =>
        rw [finishSubmit_dry] at hne
        exact absurd heq hne
      | false =>
        rw [finishSubmit_notdry] at hne ⊢
        by_cases hc : notDryLedger env ≠ ""
        · rw [if_pos hc] at hne ⊢
          exact ⟨rfl, rfl, hc⟩
        · rw [if_neg hc] at hne
          exact absurd heq hne
    by_cases hgate : continueRunGateFails env prereq st = true
    · rw [_submit_gate_fail env job no_batch prereq resubmit dryrun st hgate]
      intro hne
      exact absurd rfl hne
    · cases resubmit with
      | true =>
        rw [_submit_resubmit_shape env job no_batch prereq dryrun st (by simpa using hgate)]
        exact hfin _ ((resubmitBranch_JOB_IDS _ _ _).trans (updateBatchSystem_JOB_IDS _ _))
      | false =>
        rw [_submit_fresh_shape env job no_batch prereq dryrun st (by simpa using hgate)]
        split
        · intro hne
          exact absurd ((freshBranchState_JOB_IDS _ _ _ _).trans
            (updateBatchSystem_JOB_IDS _ _)) hne
        · exact hfin _ ((freshBranchState_JOB_IDS _ _ _ _).trans
            (updateBatchSystem_JOB_IDS _ _))

/-- Concrete instantiation of `dryrun_preserves_job_ids`: a dry run
against a state holding previous job ids leaves `JOB_IDS` untouched and
reports the ledger (including the empty id). -/
theorem dryrun_preserves_job_ids_witness :
    (_submit ⟨["CPL"], false, false, "slurm", true, true, "case.run", [("case.run", "")]⟩
        Option.none false Option.none false true ⟨0, false, false, "slurm", "old:7"⟩).1.JOB_IDS
      = "old:7"
    ∧ "case.run:"
      = dryLedger ⟨["CPL"], false, false, "slurm", true, true, "case.run", [("case.run", "")]⟩ := by
  have h := (dryrun_preserves_job_ids
    ⟨["CPL"], false, false, "slurm", true, true, "case.run", [("case.run", "")]⟩
    Option.none false Option.none false true ⟨0, false, false, "slurm", "old:7"⟩).1
  exact ⟨h.1, h.2 "case.run:" (by rfl)⟩

end CaseSubmit

namespace CaseSubmit

/-- Modelled from the spec: the submit-phase name constant of the
test-status collaborator (`CIME.test_status`, imported with `*` and not
part of the sources). -/
def SUBMIT_PHASE : String := "SUBMIT"

/-- Modelled from the spec: the passing phase status of the test-status
collaborator. -/
def TEST_PASS_STATUS : String := "PASS"

/-- Modelled from the spec: the failing phase status of the test-status
collaborator. -/
def TEST_FAIL_STATUS : String := "FAIL"

/-- Observable test-status events of the `submit` wrapper, in program
order: `setStatus` is a `ts.set_status(phase, status)` call and `runBody`
is the invocation of the wrapped submission cycle. -/
inductive SubmitEvent where
  | setStatus (phase status : String)
  | runBody
deriving DecidableEq, Repr

/-- The test-status behaviour of the `submit` member (case_submit.py lines
238-251 and 294-301): in test mode, mark the SUBMIT phase PASS before
running the body unless it is already PASS; if the body raises anything
(`except BaseException`, so interrupts included), mark the SUBMIT phase
FAIL and re-raise.  `test` is `self.get_value("TEST")`, `phase_status` is
`ts.get_status(SUBMIT_PHASE)`, and `body` is the outcome of the wrapped
submission cycle with an arbitrary exception type `ε`. -/
def submit_wrapper {ε α : Type} (test : Bool) (phase_status : String)
    (body : Except ε α) : List SubmitEvent × Except ε α :=
  let pre :=
    if test then
      if phase_status ≠ TEST_PASS_STATUS then
        [SubmitEvent.setStatus SUBMIT_PHASE TEST_PASS_STATUS]
      else []
    else []
  match body with
  | Except.ok a => (pre ++ [SubmitEvent.runBody], Except.ok a)
  | Except.error e =>
    (pre ++ [SubmitEvent.runBody]
      ++ (if test then [SubmitEvent.setStatus SUBMIT_PHASE TEST_FAIL_STATUS] else []),
     Except.error e)

/-- Claim C8: the wrapper's outcome is always the body's outcome (it never
swallows errors and re-raises the same exception unmodified); in test mode
it marks the SUBMIT phase PASS before running the body unless the phase is
already PASS; when the phase is already PASS no PASS mark is written; on
any exception in test mode the last event is the SUBMIT-FAIL mark; and on
success no FAIL mark is ever written. -/
theorem submit_wrapper_test_status {ε α : Type} (test : Bool) (phase_status : String)
    (body : Except ε α) :
    ((submit_wrapper test phase_status body).2 = body)
    ∧ (test = true → phase_status ≠ TEST_PASS_STATUS →
        ∃ tail, (submit_wrapper test phase_status body).1 =
          SubmitEvent.setStatus SUBMIT_PHASE TEST_PASS_STATUS :: SubmitEvent.runBody :: tail)
    ∧ (phase_status = TEST_PASS_STATUS →
        SubmitEvent.setStatus SUBMIT_PHASE TEST_PASS_STATUS ∉
          (submit_wrapper test phase_status body).1)
    ∧ (∀ e, body = Except.error e → test = true →
        (submit_wrapper test phase_status body).1.getLast? =
          some (SubmitEvent.setStatus SUBMIT_PHASE TEST_FAIL_STATUS))
    ∧ (∀ a, body = Except.ok a →
        SubmitEvent.setStatus SUBMIT_PHASE TEST_FAIL_STATUS ∉
          (submit_wrapper test phase_status body).1) := by
  refine ⟨?_, ?_, ?_, ?_, ?_⟩
  · cases body <;> rfl
  · intro ht hne
    subst ht
    cases body with
    | ok a => exact ⟨[], by simp [submit_wrapper, hne]⟩
    | error e =>
      exact ⟨[SubmitEvent.setStatus SUBMIT_PHASE TEST_FAIL_STATUS],
        by simp [submit_wrapper, hne]⟩
  · intro hp
    subst hp
    cases test <;> cases body <;> (simp [submit_wrapper]; try decide)
  · intro e hb ht
    subst hb
    subst ht
    by_cases hp : phase_status = TEST_PASS_STATUS
    · simp [submit_wrapper, hp, List.getLast?_concat]
    · simp [submit_wrapper, hp, List.getLast?_concat]
  · intro a hb
    subst hb
    cases test <;> by_cases hp : phase_status = TEST_PASS_STATUS <;>
      (simp [submit_wrapper, hp]; try decide)

/-- Concrete instantiation of `submit_wrapper_test_status`: in test mode
with the phase not yet PASS and an interrupted body, the event trace is
PASS-mark, body, FAIL-mark, and the interrupt is re-raised. -/
theorem submit_wrapper_test_status_witness :
    (submit_wrapper true "PEND" (Except.error "KeyboardInterrupt" : Except String Unit)).2
      = Except.error "KeyboardInterrupt"
    ∧ (∃ tail, (submit_wrapper true "PEND"
        (Except.error "KeyboardInterrupt" : Except String Unit)).1 =
          SubmitEvent.setStatus SUBMIT_PHASE TEST_PASS_STATUS :: SubmitEvent.runBody :: tail)
    ∧ (submit_wrapper true "PEND"
        (Except.error "KeyboardInterrupt" : Except String Unit)).1.getLast? =
      some (SubmitEvent.setStatus SUBMIT_PHASE TEST_FAIL_STATUS) := by
  have h := submit_wrapper_test_status true "PEND"
    (Except.error "KeyboardInterrupt" : Except String Unit)
  exact ⟨h.1, h.2.1 rfl (by decide), h.2.2.2.1 "KeyboardInterrupt" rfl rfl⟩

end CaseSubmit

namespace Machines

/-- A Python value as stored in the override cache or produced by the
lookup chain of `Machines.get_value`. -/
inductive PyVal where
  | pynone
  | str (s : String)
  | int (n : ℤ)
  | boolean (b : Bool)
deriving DecidableEq, Repr

/-- The external collaborators of `Machines.get_value` (machines.py lines
381-416): the default-compiler and default-MPI-library list lookups, the
document lookup `get_optional_child`/`text` (collapsed to the optional
text of the most specific matching node), `get_resolved_value`,
`os.environ`, and `convert_to_unknown_type`. -/
structure ValueEnv where
  get_default_compiler : PyVal
  get_default_MPIlib : Option (List (String × String)) → PyVal
  doc_text : String → Option (List (String × String)) → Option String
  get_resolved_value : PyVal → PyVal
  environ : String → Option String
  convert_to_unknown_type : PyVal → PyVal

/-- The mutable state of a `Machines` object that `get_value`/`set_value`
touch: whether `machine_node` is set (it is `None` after
`set_machine("Query")`), and the `custom_settings` override dictionary in
insertion order. -/
structure MachinesState where
  machine_node_defined : Bool
  custom_settings : List (String × PyVal)
deriving DecidableEq, Repr

/-- Python dict assignment `d[k] = v`: replace in place or append. -/
def dictInsert : List (String × PyVal) → String → PyVal → List (String × PyVal)
  | [], k, v => [(k, v)]
  | (k1, v1) :: rest, k, v =>
    if k1 = k then (k1, v) :: rest else (k1, v1) :: dictInsert rest k v

/-- `Machines.set_value` (machines.py lines 511-513):
`self.custom_settings[vid] = value`, ignoring `subgroup` and
`ignore_type`. -/
def set_value (st : MachinesState) (vid : String) (value : PyVal) : MachinesState :=
  { st with custom_settings := dictInsert st.custom_settings vid value }

/-- `Machines.get_value` (machines.py lines 381-416): return `None` when no
machine is selected; otherwise return the override-cache entry when the
name is cached; otherwise consult the COMPILER/MPILIB special cases or the
document, then (when `resolved`) apply reference resolution or the
environment-variable fallback and coerce the result.  `subgroup` is always
`None` in scope here (anything else raises on line 389). -/
def get_value (st : MachinesState) (env : ValueEnv) (name : String)
    (attributes : Option (List (String × String))) (resolved : Bool) : PyVal :=
  if st.machine_node_defined = false then PyVal.pynone
  else
    match st.custom_settings.lookup name with
    | some v => v
    | Option.none =>
      let value :=
        if name = "COMPILER" then env.get_default_compiler
        else if name = "MPILIB" then env.get_default_MPIlib attributes
        else
          match env.doc_text name attributes with
          | some t => PyVal.str t
          | Option.none => PyVal.pynone
      if resolved then
        let value :=
          if value ≠ PyVal.pynone then env.get_resolved_value value
          else
            match env.environ name with
            | some s => PyVal.str s
            | Option.none => PyVal.pynone
        env.convert_to_unknown_type value
      else value

/-- A concrete oracle environment used by the concrete instances. -/
def trivialValueEnv : ValueEnv :=
  ⟨PyVal.str "gnu", fun _ => PyVal.str "mpich", fun _ _ => Option.none,
   fun v => v, fun _ => Option.none, fun v => v⟩

theorem dictInsert_lookup (d : List (String × PyVal)) (k : String) (v : PyVal) :
    (dictInsert d k v).lookup k = some v := by
  induction d with
  | nil => simp [dictInsert, List.lookup]
  | cons p rest ih =>
    obtain ⟨k1, v1⟩ := p
    unfold dictInsert
    by_cases h : k1 = k
    · subst h
      simp [List.lookup]
    · have hbe : (k == k1) = false := beq_eq_false_iff_ne.mpr (Ne.symm h)
      simp [h, List.lookup, hbe, ih]

/-- Counterexample to claim C10: with no machine selected (reachable via
`set_machine("Query")`), `get_value` returns `None` even for a name just
assigned through `set_value`, because the `machine_node is None` check on
line 385 precedes the override-cache lookup on line 392. -/
theorem get_value_no_machine_counterexample :
    get_value (set_value ⟨false, []⟩ "FOO" (PyVal.str "bar")) trivialValueEnv
        "FOO" Option.none true = PyVal.pynone
    ∧ PyVal.pynone ≠ PyVal.str "bar" := by
  constructor
  · rfl
  · decide

/-- Claim C10 as amended: provided a machine is selected (`machine_node`
not `None`), `get_value` on a name previously assigned through `set_value`
returns the stored override exactly as assigned — for every oracle
environment (so skipping document lookup, reference substitution, the
environment fallback and type coercion), every `attributes` argument and
both values of the `resolved` flag. -/
theorem get_value_returns_override (st : MachinesState) (env : ValueEnv)
    (name : String) (v : PyVal) (attributes : Option (List (String × String)))
    (resolved : Bool) (hm : st.machine_node_defined = true) :
    get_value (set_value st name v) env name attributes resolved = v := by
  unfold get_value set_value
  simp [hm, dictInsert_lookup]

/-- Concrete instantiation of `get_value_returns_override`. -/
theorem get_value_returns_override_witness :
    get_value (set_value ⟨true, []⟩ "FOO" (PyVal.str "bar")) trivialValueEnv
      "FOO" Option.none true = PyVal.str "bar" :=
  get_value_returns_override ⟨true, []⟩ trivialValueEnv "FOO" (PyVal.str "bar")
    Option.none true rfl

end Machines
